import Mathlib

/-!
# WeightLifter: the form enhancement script `static/js/app.js`

The script runs once on document-ready.  It starts three picker widgets and binds three click
handlers which copy a value found in the page into the `value` of a form field.

The handlers are embedded over an explicit document tree.  The jQuery calls they are written
with (`$(selector)`, `.closest`, `.html()`, `.val()`, `.val(v)`) are modelled after jQuery's
behaviour (1.7 and later, the versions which have `.on`):

* `$(sel)` is the list of matching elements in document order; an id selector stands for the
  first element carrying that id (`getElementById`);
* `.val()` and `.html()` read the first element of the set and give `undefined` (`none`) on an
  empty set;
* `.val(v)` performs `this.value = v` on every element of the set and treats `undefined` as the
  empty string (the special treatment jQuery gives a `select` target is left out).

Scope of the document model: an element carries a tag, an id, a class list and its current
`value` property, which is not part of the markup (as for `input` elements); `option` elements
carry their `value` attribute and their selectedness, and no id or class.  Other attributes
are not modelled.
-/

namespace WeightLifter

/-- A position in the document tree: the child indices leading from the root element to a node. -/
abbrev Path := List Nat

/-- Nodes of the document tree.  `text` is a text node, `option` an `option` element with its
`value` attribute (if present) and its selectedness, `element` any other element with its tag,
id, class list and current `value` property. -/
inductive Node where
  | text (data : String)
  | option (value : Option String) (selected : Bool) (children : List Node)
  | element (tag : String) (id : Option String) (classes : List String) (value : String)
      (children : List Node)

/-- A document is given by its root element. -/
abbrev Document := Node

/-- Child nodes of a node. -/
def Node.children : Node → List Node
  | .text _ => []
  | .option _ _ cs => cs
  | .element _ _ _ _ cs => cs

/-- Tag name of an element node. -/
def Node.tagName : Node → Option String
  | .text _ => none
  | .option _ _ _ => some "option"
  | .element t _ _ _ _ => some t

/-- The id attribute of an element node. -/
def Node.idAttr : Node → Option String
  | .element _ i _ _ _ => i
  | _ => none

/-- The class list of an element node. -/
def Node.classList : Node → List String
  | .element _ _ c _ _ => c
  | _ => []

/-- The `selected` property: true only on a selected `option` element. -/
def Node.isSelected : Node → Bool
  | .option _ s _ => s
  | _ => false

/-- The `value` of a node: the `value` attribute of an `option`, the `value` property of any
other element; text nodes have none. -/
def Node.value : Node → Option String
  | .text _ => none
  | .option v _ _ => v
  | .element _ _ _ v _ => some v

/-- The node at a path below `n`. -/
def nodeAt : Node → Path → Option Node
  | n, [] => some n
  | n, i :: p =>
    match n.children[i]? with
    | none => none
    | some c => nodeAt c p

/-- The `value` of the node at a path, `none` when there is no such element or no value. -/
def valueAt (d : Document) (p : Path) : Option String :=
  (nodeAt d p).bind Node.value

mutual
/-- Paths of the element nodes of a subtree, in document (pre-)order, relative to its root. -/
def Node.elementPaths : Node → List Path
  | .text _ => []
  | .option _ _ cs => [] :: childPaths cs 0
  | .element _ _ _ _ cs => [] :: childPaths cs 0
/-- Element paths of a list of siblings, the first of which is child number `k`. -/
def childPaths : List Node → Nat → List Path
  | [], _ => []
  | n :: ns, k => (n.elementPaths.map (fun p => k :: p)) ++ childPaths ns (k + 1)
end

mutual
/-- Concatenated data of all text nodes of a subtree (`jQuery.text`). -/
def Node.textContent : Node → String
  | .text s => s
  | .option _ _ cs => textList cs
  | .element _ _ _ _ cs => textList cs
/-- Text content of a list of siblings. -/
def textList : List Node → String
  | [] => ""
  | n :: ns => n.textContent ++ textList ns
end

/-- The whitespace characters of `rnothtmlwhite`: space, tab, CR, LF, FF. -/
def isHtmlWhite (c : Char) : Bool :=
  c.toNat = 32 || c.toNat = 9 || c.toNat = 13 || c.toNat = 10 || c.toNat = 12

/-- Strip and collapse whitespace according to HTML spec (`stripAndCollapse` in jQuery). -/
def stripAndCollapse (s : String) : String :=
  " ".intercalate (((s.data.splitOnP isHtmlWhite).filter (fun w => !w.isEmpty)).map String.mk)

/-- Escaping of a text node by the HTML fragment serialisation algorithm. -/
def escapeText (s : String) : String :=
  String.join (s.data.map (fun c =>
    if c.toNat = 38 then "&amp;" else if c.toNat = 60 then "&lt;"
    else if c.toNat = 62 then "&gt;" else if c.toNat = 160 then "&nbsp;" else String.mk [c]))

/-- Escaping of an attribute value by the HTML fragment serialisation algorithm. -/
def escapeAttr (s : String) : String :=
  String.join (s.data.map (fun c =>
    if c.toNat = 38 then "&amp;" else if c.toNat = 34 then "&quot;"
    else if c.toNat = 160 then "&nbsp;" else String.mk [c]))

/-- Serialised attribute `name="value"`, preceded by a space. -/
def attrHTML (name value : String) : String :=
  " " ++ name ++ "=" ++ String.mk [Char.ofNat 34] ++ escapeAttr value ++ String.mk [Char.ofNat 34]

/-- Serialised attribute, nothing when the attribute is absent. -/
def optAttrHTML (name : String) : Option String → String
  | none => ""
  | some v => attrHTML name v

/-- Elements serialised without children and end tag. -/
def voidTags : List String :=
  ["area", "base", "basefont", "bgsound", "br", "col", "embed", "frame", "hr", "img", "input",
   "keygen", "link", "meta", "param", "source", "track", "wbr"]

/-- Elements whose text children are serialised literally. -/
def rawTextTags : List String :=
  ["style", "script", "xmp", "iframe", "noembed", "noframes", "plaintext", "noscript"]

mutual
/-- HTML serialisation of a node; `raw` tells that the parent serialises text literally.  The
`value` property of an element and the selectedness of an option are not markup. -/
def Node.outerHTML : Bool → Node → String
  | raw, .text s => if raw then s else escapeText s
  | _, .option v _ cs =>
    "<option" ++ optAttrHTML "value" v ++ ">" ++ serialize false cs ++ "</option>"
  | _, .element t i c _ cs =>
    "<" ++ t ++ optAttrHTML "id" i
      ++ (if c.isEmpty then "" else attrHTML "class" (" ".intercalate c)) ++ ">"
      ++ (if t ∈ voidTags then ""
          else serialize (decide (t ∈ rawTextTags)) cs ++ "</" ++ t ++ ">")
/-- HTML serialisation of a list of siblings. -/
def serialize : Bool → List Node → String
  | _, [] => ""
  | raw, n :: ns => n.outerHTML raw ++ serialize raw ns
end

/-- The `innerHTML` of an element: the serialisation of its children. -/
def Node.innerHTML (n : Node) : String :=
  serialize (decide (n.tagName ∈ rawTextTags.map some)) n.children

/-- The simple selectors used by the script: `#id`, `.class`, a tag name and `:selected`. -/
inductive Simple where
  | id (name : String)
  | cls (name : String)
  | tag (name : String)
  | selected
  deriving DecidableEq

/-- A selector is a chain of simple selectors joined by the descendant combinator, the subject
last: `'#list-clubs :selected'` is `[.id "list-clubs", .selected]`. -/
abbrev Selector := List Simple

/-- The first element in document order with the given id (`document.getElementById`). -/
def getElementById (d : Document) (name : String) : Option Path :=
  d.elementPaths.find? (fun p => decide ((nodeAt d p).bind Node.idAttr = some name))

/-- Does the element at `p` match the simple selector?  An id selector selects the first
element with that id, as jQuery does for a leading `#id`. -/
def matchesSimple (d : Document) (p : Path) : Simple → Bool
  | .id name => decide (getElementById d name = some p)
  | .cls name =>
    match nodeAt d p with
    | some n => decide (name ∈ n.classList)
    | none => false
  | .tag name =>
    match nodeAt d p with
    | some n => decide (n.tagName = some name)
    | none => false
  | .selected =>
    match nodeAt d p with
    | some n => n.isSelected
    | none => false

/-- Proper ancestors of a path, nearest first. -/
def ancestors (p : Path) : List Path :=
  p.inits.reverse.tail

/-- Matching of a selector chain given subject first: the element matches the first simple
selector and, if more remain, some proper ancestor matches the rest. -/
def matchesRev (d : Document) : List Simple → Path → Bool
  | [], _ => true
  | s :: rest, p =>
    matchesSimple d p s && (rest.isEmpty || (ancestors p).any (fun q => matchesRev d rest q))

/-- Does the element at `p` match the selector (`jQuery.find.matchesSelector`)? -/
def matchesSelector (d : Document) (sel : Selector) (p : Path) : Bool :=
  matchesRev d sel.reverse p

/-- The jQuery set `$(sel)`: all matching elements, in document order. -/
def jQuery (d : Document) (sel : Selector) : List Path :=
  d.elementPaths.filter (matchesSelector d sel)

/-- Sort into document order and drop duplicates (`jQuery.uniqueSort`). -/
def uniqueSort (d : Document) (ps : List Path) : List Path :=
  d.elementPaths.filter (fun p => decide (p ∈ ps))

/-- For each element of the set, the first of the element itself and its ancestors (nearest
first) which matches the selector (`.closest(sel)`); the result is sorted when it has more than
one element. -/
def closest (d : Document) (set : List Path) (sel : Selector) : List Path :=
  let matched := set.filterMap (fun p => p.inits.reverse.find? (matchesSelector d sel))
  if matched.length > 1 then uniqueSort d matched else matched

/-- The getter `.html()`: the `innerHTML` of the first element, `undefined` on an empty set. -/
def html (d : Document) : List Path → Option String
  | [] => none
  | p :: _ => (nodeAt d p).map Node.innerHTML

/-- What the getter `.val()` reads from one element: for an `option` its `value` attribute and,
lacking that, its stripped and collapsed text; for other elements the `value` property without
carriage returns. -/
def Node.val : Node → Option String
  | .text _ => none
  | .option (some v) _ _ => some v
  | .option none _ cs => some (stripAndCollapse (textList cs))
  | .element _ _ _ v _ => some (String.mk (v.data.filter (fun c => c.toNat ≠ 13)))

/-- The getter `.val()`: the value of the first element, `undefined` on an empty set. -/
def val (d : Document) : List Path → Option String
  | [] => none
  | p :: _ => (nodeAt d p).bind Node.val

mutual
/-- Assign `v` to the `value` of every element whose path is among `targets`; `here` is the
path of the node visited. -/
def Node.assign (targets : List Path) (v : String) : Path → Node → Node
  | _, .text s => .text s
  | here, .option a s cs =>
    .option (if here ∈ targets then some v else a) s (assignList targets v here 0 cs)
  | here, .element t i c w cs =>
    .element t i c (if here ∈ targets then v else w) (assignList targets v here 0 cs)
/-- Assignment within a list of siblings, the first of which is child number `k` of `here`. -/
def assignList (targets : List Path) (v : String) : Path → Nat → List Node → List Node
  | _, _, [] => []
  | here, k, n :: ns => n.assign targets v (here ++ [k]) :: assignList targets v here (k + 1) ns
end

/-- The setter `.val(value)`: every element of the set gets `this.value = value`, where
`undefined` is treated as the empty string. -/
def setVal (d : Document) (set : List Path) (value : Option String) : Document :=
  d.assign set (value.getD "") []

/-- Click handler bound to `#list-clubs-submit`; `_this` is the clicked element, which the
handler does not use. -/
def listClubsSubmitClick (_this : Path) (d : Document) : Document :=
  let value := val d (jQuery d [.id "list-clubs", .selected])
  setVal d (jQuery d [.id "list-clubs-id"]) value

/-- Click handler bound to `#lifter-club-submit`. -/
def lifterClubSubmitClick (_this : Path) (d : Document) : Document :=
  let value := val d (jQuery d [.id "lifter-club", .selected])
  setVal d (jQuery d [.id "lifter-club-id"]) value

/-- Click handler bound to the elements `$('i .glyphicon-pencil')`. -/
def glyphiconPencilClick (_this : Path) (d : Document) : Document :=
  let id := html d (closest d (jQuery d [.tag "i", .cls "glyphicon-pencil"])
    [.tag "td", .cls "lifter-list-id"])
  setVal d (jQuery d [.cls "lifter-id"]) id

/-- A call made by the document-ready callback: a picker plugin started on `$(selector)` with
an options object, or a handler bound with `.on(event, handler)`. -/
inductive Call where
  | plugin (selector : Selector) (name : String) (options : List (String × String))
  | on (selector : Selector) (event : String) (handler : Path → Document → Document)

/-- The calls of the document-ready callback, in source order. -/
def ready : List Call :=
  [ .plugin [.id "datetimepicker1"] "datetimepicker" [("format", "dd-mm-yyyy hh:ii")],
    .plugin [.id "datetimepicker2"] "datetimepicker" [("format", "dd-mm-yyyy hh:ii")],
    .plugin [.id "birthday"] "datepicker" [("format", "dd-mm-yyyy")],
    .on [.id "list-clubs-submit"] "click" listClubsSubmitClick,
    .on [.id "lifter-club-submit"] "click" lifterClubSubmitClick,
    .on [.tag "i", .cls "glyphicon-pencil"] "click" glyphiconPencilClick ]

/-- The picker started by a call, if it is one: selector, plugin name and options. -/
def Call.picker : Call → Option (Selector × String × List (String × String))
  | .plugin sel name opts => some (sel, name, opts)
  | .on _ _ _ => none

/-- The picker initialisations issued by the document-ready callback. -/
def pickerCalls : List (Selector × String × List (String × String)) :=
  ready.filterMap Call.picker

/-- An element without id, class or value. -/
def el (tag : String) (children : List Node) : Node :=
  .element tag none [] "" children

/-- A page where the placeholder option (empty value) is chosen in `#list-clubs` and
`#lifter-club` has no option at all; the hidden fields hold values copied earlier. -/
def emptySelectionPage : Document :=
  el "html" [el "body" [
    .element "select" (some "list-clubs") [] "" [
      .option (some "") true [.text "Choose a club"],
      .option (some "7") false [.text "IK 99"]],
    .element "input" (some "list-clubs-id") [] "7" [],
    .element "button" (some "list-clubs-submit") [] "" [.text "Show"],
    .element "select" (some "lifter-club") [] "" [],
    .element "input" (some "lifter-club-id") [] "42" [],
    .element "button" (some "lifter-club-submit") [] "" [.text "Save"]]]

/-- A page with the hidden field `#list-clubs-id` holding `5` and no dropdown `#list-clubs`. -/
def noDropdownPage : Document :=
  el "html" [el "body" [
    .element "input" (some "list-clubs-id") [] "5" [],
    .element "button" (some "list-clubs-submit") [] "" [.text "Show"]]]

/-- A page with the dropdown `#list-clubs` and no hidden field. -/
def noTargetPage : Document :=
  el "html" [el "body" [
    .element "select" (some "list-clubs") [] "7" [.option (some "7") true [.text "IK 99"]],
    .element "button" (some "list-clubs-submit") [] "" [.text "Show"]]]

/-- One table row: a cell displaying the lifter id, a name cell and a cell with the edit icon. -/
def lifterRow (id name : String) : Node :=
  el "tr" [
    .element "td" none ["lifter-list-id"] "" [.text id],
    el "td" [.text name],
    el "td" [el "i" [.element "span" none ["glyphicon", "glyphicon-pencil"] "" []]]]

/-- A lifter table with the single row `103`, followed by the lifter-id input of the form. -/
def lifterTable : Document :=
  el "html" [el "body" [
    el "table" [el "tbody" [lifterRow "103" "Anna"]],
    .element "input" none ["lifter-id"] "" []]]

/-- A lifter table with the rows `1` and `2`, followed by the lifter-id input of the form. -/
def twoRowTable : Document :=
  el "html" [el "body" [
    el "table" [el "tbody" [lifterRow "1" "Anna", lifterRow "2" "Bo"]],
    .element "input" none ["lifter-id"] "" []]]

/-- A table row whose edit icon is itself the element displaying the lifter id. -/
def iconRow (id : String) : Node :=
  el "tr" [
    el "td" [el "i" [.element "span" none ["glyphicon-pencil", "lifter-list-id"] "" [.text id]]]]

/-- The rows `1` and `2` in the markup of `iconRow`, followed by the lifter-id input. -/
def twoIconRows : Document :=
  el "html" [el "body" [
    el "table" [el "tbody" [iconRow "1", iconRow "2"]],
    .element "input" none ["lifter-id"] "" []]]


/-! ## Induction over the document tree and the effect of an assignment -/

mutual
theorem Node.induct {P : Node → Prop} (htext : ∀ s, P (.text s))
    (hopt : ∀ v s cs, (∀ c ∈ cs, P c) → P (.option v s cs))
    (helem : ∀ t i c w cs, (∀ m ∈ cs, P m) → P (.element t i c w cs)) : ∀ n, P n
  | .text s => htext s
  | .option v s cs => hopt v s cs (Node.inductList htext hopt helem cs)
  | .element t i c w cs => helem t i c w cs (Node.inductList htext hopt helem cs)
theorem Node.inductList {P : Node → Prop} (htext : ∀ s, P (.text s))
    (hopt : ∀ v s cs, (∀ c ∈ cs, P c) → P (.option v s cs))
    (helem : ∀ t i c w cs, (∀ m ∈ cs, P m) → P (.element t i c w cs)) :
    ∀ cs : List Node, ∀ c ∈ cs, P c
  | [], _, h => by cases h
  | n :: ns, c, h => by
    rcases List.mem_cons.1 h with h | h
    · subst h; exact Node.induct htext hopt helem _
    · exact Node.inductList htext hopt helem ns c h
end

theorem children_assign (T : List Path) (v : String) (here : Path) (n : Node) :
    (n.assign T v here).children = assignList T v here 0 n.children := by
  cases n <;> simp [Node.assign, Node.children, assignList]

theorem getElem?_assignList (T : List Path) (v : String) (here : Path) :
    ∀ (cs : List Node) (k j : Nat),
      (assignList T v here k cs)[j]? = (cs[j]?).map (Node.assign T v (here ++ [k + j]))
  | [], k, j => by simp [assignList]
  | c :: cs, k, 0 => by simp [assignList]
  | c :: cs, k, j + 1 => by
    simp only [assignList, List.getElem?_cons_succ]
    rw [getElem?_assignList T v here cs (k + 1) j]
    have : k + 1 + j = k + (j + 1) := by omega
    rw [this]

theorem nodeAt_assign (T : List Path) (v : String) :
    ∀ (q : Path) (n : Node) (here : Path),
      nodeAt (n.assign T v here) q = (nodeAt n q).map (Node.assign T v (here ++ q))
  | [], n, here => by simp [nodeAt]
  | i :: q, n, here => by
    simp only [nodeAt, children_assign, getElem?_assignList]
    cases h : n.children[i]? with
    | none => simp
    | some c => simp [nodeAt_assign T v q c (here ++ [i])]

theorem tagName_assign (T : List Path) (v : String) (here : Path) (n : Node) :
    (n.assign T v here).tagName = n.tagName := by
  cases n <;> simp [Node.assign, Node.tagName]

theorem idAttr_assign (T : List Path) (v : String) (here : Path) (n : Node) :
    (n.assign T v here).idAttr = n.idAttr := by
  cases n <;> simp [Node.assign, Node.idAttr]

theorem classList_assign (T : List Path) (v : String) (here : Path) (n : Node) :
    (n.assign T v here).classList = n.classList := by
  cases n <;> simp [Node.assign, Node.classList]

theorem isSelected_assign (T : List Path) (v : String) (here : Path) (n : Node) :
    (n.assign T v here).isSelected = n.isSelected := by
  cases n <;> simp [Node.assign, Node.isSelected]

theorem childPaths_assignList (T : List Path) (v : String) (here : Path) :
    ∀ (cs : List Node),
      (∀ c ∈ cs, ∀ h : Path, (c.assign T v h).elementPaths = c.elementPaths) →
      ∀ k j : Nat, childPaths (assignList T v here k cs) j = childPaths cs j
  | [], _, k, j => by simp [assignList, childPaths]
  | c :: cs, ih, k, j => by
    simp only [assignList, childPaths]
    rw [ih c (List.mem_cons_self _ _),
      childPaths_assignList T v here cs (fun m hm => ih m (List.mem_cons_of_mem _ hm))]

theorem elementPaths_assign (T : List Path) (v : String) (n : Node) :
    ∀ here : Path, (n.assign T v here).elementPaths = n.elementPaths := by
  refine Node.induct
    (P := fun n => ∀ here : Path, (n.assign T v here).elementPaths = n.elementPaths) ?_ ?_ ?_ n
  · intro s here; simp [Node.assign]
  · intro a s cs ih here
    simp only [Node.assign, Node.elementPaths]
    rw [childPaths_assignList T v here cs ih]
  · intro t i c w cs ih here
    simp only [Node.assign, Node.elementPaths]
    rw [childPaths_assignList T v here cs ih]

theorem getElementById_assign (T : List Path) (v : String) (d : Document) (name : String) :
    getElementById (d.assign T v []) name = getElementById d name := by
  unfold getElementById
  rw [elementPaths_assign]
  congr 1
  funext p
  rw [nodeAt_assign]
  cases nodeAt d p <;> simp [idAttr_assign]

theorem matchesSimple_assign (T : List Path) (v : String) (d : Document) (p : Path) (s : Simple) :
    matchesSimple (d.assign T v []) p s = matchesSimple d p s := by
  cases s <;> simp only [matchesSimple, getElementById_assign, nodeAt_assign] <;>
    cases nodeAt d p <;> simp [classList_assign, tagName_assign, isSelected_assign]

theorem matchesRev_assign (T : List Path) (v : String) (d : Document) :
    ∀ (sel : List Simple) (p : Path), matchesRev (d.assign T v []) sel p = matchesRev d sel p
  | [], p => by simp [matchesRev]
  | s :: rest, p => by
    simp only [matchesRev, matchesSimple_assign]
    congr 2
    congr 1
    funext q
    exact matchesRev_assign T v d rest q

theorem matchesSelector_assign (T : List Path) (v : String) (d : Document) (sel : Selector) :
    matchesSelector (d.assign T v []) sel = matchesSelector d sel := by
  funext p
  simp [matchesSelector, matchesRev_assign]

theorem jQuery_assign (T : List Path) (v : String) (d : Document) (sel : Selector) :
    jQuery (d.assign T v []) sel = jQuery d sel := by
  simp [jQuery, matchesSelector_assign, elementPaths_assign]

theorem assignList_nil (v : String) (here : Path) :
    ∀ (cs : List Node), (∀ c ∈ cs, ∀ h : Path, c.assign [] v h = c) →
      ∀ k : Nat, assignList [] v here k cs = cs
  | [], _, k => by simp [assignList]
  | c :: cs, ih, k => by
    simp only [assignList]
    rw [ih c (List.mem_cons_self _ _),
      assignList_nil v here cs (fun m hm => ih m (List.mem_cons_of_mem _ hm))]

theorem assign_nil (v : String) (n : Node) : ∀ here : Path, n.assign [] v here = n := by
  refine Node.induct (P := fun n => ∀ here : Path, n.assign [] v here = n) ?_ ?_ ?_ n
  · intro s here; simp [Node.assign]
  · intro a s cs ih here
    simp [Node.assign, assignList_nil v here cs ih]
  · intro t i c w cs ih here
    simp [Node.assign, assignList_nil v here cs ih]

theorem matchesSelector_single (d : Document) (s : Simple) (p : Path) :
    matchesSelector d [s] p = matchesSimple d p s := by
  simp [matchesSelector, matchesRev]

theorem mem_jQuery {d : Document} {sel : Selector} {p : Path} :
    p ∈ jQuery d sel ↔ p ∈ d.elementPaths ∧ matchesSelector d sel p = true := by
  simp [jQuery]

theorem getElementById_some {d : Document} {name : String} {p : Path}
    (h : getElementById d name = some p) :
    ∃ t c w cs, nodeAt d p = some (.element t (some name) c w cs) := by
  have h1 := List.find?_some h
  simp only [decide_eq_true_eq] at h1
  cases hn : nodeAt d p with
  | none => simp [hn] at h1
  | some n =>
    cases n with
    | text s => simp [hn, Node.idAttr] at h1
    | option a s cs => simp [hn, Node.idAttr] at h1
    | element t i c w cs =>
      simp [hn, Node.idAttr] at h1
      exact ⟨t, c, w, cs, by rw [h1]⟩

theorem mem_jQuery_id {d : Document} {name : String} {p : Path}
    (h : p ∈ jQuery d [.id name]) : getElementById d name = some p := by
  have h1 := (mem_jQuery.1 h).2
  rw [matchesSelector_single] at h1
  simpa [matchesSimple] using h1

theorem mem_jQuery_cls {d : Document} {name : String} {p : Path}
    (h : p ∈ jQuery d [.cls name]) :
    ∃ t i c w cs, nodeAt d p = some (.element t i c w cs) := by
  have h1 := (mem_jQuery.1 h).2
  rw [matchesSelector_single] at h1
  simp only [matchesSimple] at h1
  cases hn : nodeAt d p with
  | none => simp [hn] at h1
  | some n =>
    cases n with
    | text s => simp [hn, Node.classList] at h1
    | option a s cs => simp [hn, Node.classList] at h1
    | element t i c w cs => exact ⟨t, i, c, w, cs, rfl⟩

theorem valueAt_assign_of_mem (T : List Path) (v : String) (d : Document) (p : Path)
    (hp : p ∈ T) {t : String} {i : Option String} {c : List String} {w : String}
    {cs : List Node} (hn : nodeAt d p = some (.element t i c w cs)) :
    valueAt (d.assign T v []) p = some v := by
  unfold valueAt
  rw [nodeAt_assign, hn]
  simp [Node.assign, Node.value, hp]

theorem copy_value (d : Document) (tgt : String) (value : Option String) (p : Path)
    (hp : p ∈ jQuery d [.id tgt]) :
    p ∈ jQuery (setVal d (jQuery d [.id tgt]) value) [.id tgt] ∧
      valueAt (setVal d (jQuery d [.id tgt]) value) p = some (value.getD "") := by
  unfold setVal
  rw [jQuery_assign]
  obtain ⟨t, c, w, cs, hn⟩ := getElementById_some (mem_jQuery_id hp)
  exact ⟨hp, valueAt_assign_of_mem _ _ d p hp hn⟩

/-- C3, evaluated on `lifterTable`: the row displays the lifter id `103` and its edit icon is
one of the elements the handler is bound to, yet the handler leaves the empty string, not
`103`, in the lifter-id input: `.closest('td .lifter-list-id')` looks only at the icon and its
ancestors, and the displaying cell is none of them. -/
theorem glyphiconPencilClick_lifterTable :
    (nodeAt lifterTable [0, 0, 0, 0, 0]).map Node.textContent = some "103" ∧
      [0, 0, 0, 0, 2, 0, 0] ∈ jQuery lifterTable [.tag "i", .cls "glyphicon-pencil"] ∧
      jQuery lifterTable [.cls "lifter-id"] = [[0, 1]] ∧
      closest lifterTable (jQuery lifterTable [.tag "i", .cls "glyphicon-pencil"])
        [.tag "td", .cls "lifter-list-id"] = [] ∧
      valueAt (glyphiconPencilClick [0, 0, 0, 0, 2, 0, 0] lifterTable) [0, 1] = some "" := by
  decide

/-- C4, evaluated on two tables with the rows `1` and `2`, the icon of the second row being
clicked.  On `twoRowTable` the handler leaves the empty string in the lifter-id input; on
`twoIconRows`, where `.closest` does find the displaying elements, it leaves `1`, the id of
the first row.  Neither is `2`. -/
theorem glyphiconPencilClick_second_row :
    jQuery twoRowTable [.tag "i", .cls "glyphicon-pencil"]
        = [[0, 0, 0, 0, 2, 0, 0], [0, 0, 0, 1, 2, 0, 0]] ∧
      (nodeAt twoRowTable [0, 0, 0, 1, 0]).map Node.textContent = some "2" ∧
      valueAt (glyphiconPencilClick [0, 0, 0, 1, 2, 0, 0] twoRowTable) [0, 1] = some "" ∧
      jQuery twoIconRows [.tag "i", .cls "glyphicon-pencil"]
        = [[0, 0, 0, 0, 0, 0, 0], [0, 0, 0, 1, 0, 0, 0]] ∧
      (nodeAt twoIconRows [0, 0, 0, 1, 0, 0, 0]).map Node.textContent = some "2" ∧
      valueAt (glyphiconPencilClick [0, 0, 0, 1, 0, 0, 0] twoIconRows) [0, 1] = some "1" := by
  decide

/-- C5: the document-ready callback starts exactly three pickers, in this order: a
`datetimepicker` on `#datetimepicker1` and one on `#datetimepicker2`, both with format
`dd-mm-yyyy hh:ii`, and a `datepicker` on `#birthday` with format `dd-mm-yyyy`; `format` is the
only option of each call. -/
theorem ready_pickerCalls :
    pickerCalls =
      [ ([.id "datetimepicker1"], "datetimepicker", [("format", "dd-mm-yyyy hh:ii")]),
        ([.id "datetimepicker2"], "datetimepicker", [("format", "dd-mm-yyyy hh:ii")]),
        ([.id "birthday"], "datepicker", [("format", "dd-mm-yyyy")]) ] := by
  rfl

/-- C6: if `#list-clubs :selected` matches nothing, or the selected option has the empty
value, the click handler of `#list-clubs-submit` leaves the empty string in the element
`#list-clubs-id`, whatever it held; likewise for `#lifter-club-submit`, `#lifter-club` and
`#lifter-club-id`. -/
theorem submitClick_empty_selection (this : Path) (d : Document) (p : Path) :
    ((jQuery d [.id "list-clubs", .selected] = [] ∨
        val d (jQuery d [.id "list-clubs", .selected]) = some "") →
      p ∈ jQuery d [.id "list-clubs-id"] →
      valueAt (listClubsSubmitClick this d) p = some "") ∧
    ((jQuery d [.id "lifter-club", .selected] = [] ∨
        val d (jQuery d [.id "lifter-club", .selected]) = some "") →
      p ∈ jQuery d [.id "lifter-club-id"] →
      valueAt (lifterClubSubmitClick this d) p = some "") := by
  constructor
  · intro hsel hp
    have h := (copy_value d "list-clubs-id"
      (val d (jQuery d [.id "list-clubs", .selected])) p hp).2
    rcases hsel with hsel | hsel
    · simpa [listClubsSubmitClick, hsel, val] using h
    · simpa [listClubsSubmitClick, hsel] using h
  · intro hsel hp
    have h := (copy_value d "lifter-club-id"
      (val d (jQuery d [.id "lifter-club", .selected])) p hp).2
    rcases hsel with hsel | hsel
    · simpa [lifterClubSubmitClick, hsel, val] using h
    · simpa [lifterClubSubmitClick, hsel] using h

/-- C6 at `emptySelectionPage`: the placeholder of `#list-clubs` has the empty value and
`#lifter-club` has no selected option; the hidden fields held `7` and `42` and are both left
empty. -/
theorem submitClick_empty_selection_witness :
    valueAt emptySelectionPage [0, 1] = some "7" ∧
      valueAt (listClubsSubmitClick [0, 2] emptySelectionPage) [0, 1] = some "" ∧
      valueAt emptySelectionPage [0, 4] = some "42" ∧
      valueAt (lifterClubSubmitClick [0, 5] emptySelectionPage) [0, 4] = some "" :=
  ⟨by decide,
    (submitClick_empty_selection [0, 2] emptySelectionPage [0, 1]).1
      (Or.inr (by decide)) (by decide),
    by decide,
    (submitClick_empty_selection [0, 5] emptySelectionPage [0, 4]).2
      (Or.inl (by decide)) (by decide)⟩

/-- C8 as stated fails on `noDropdownPage`: the selector `#list-clubs :selected` matches no
element, yet the click handler of `#list-clubs-submit` changes the document, the value of
`#list-clubs-id` going from `5` to the empty string. -/
theorem listClubsSubmitClick_clears_without_dropdown :
    jQuery noDropdownPage [.id "list-clubs", .selected] = [] ∧
      valueAt noDropdownPage [0, 0] = some "5" ∧
      valueAt (listClubsSubmitClick [0, 1] noDropdownPage) [0, 0] = some "" ∧
      listClubsSubmitClick [0, 1] noDropdownPage ≠ noDropdownPage := by
  refine ⟨by decide, by decide, by decide, fun h => ?_⟩
  have h1 : valueAt (listClubsSubmitClick [0, 1] noDropdownPage) [0, 0]
      = valueAt noDropdownPage [0, 0] := by rw [h]
  revert h1
  decide

/-- C8, amended: a handler whose target selector matches no element returns the document
unchanged; a handler whose source matches no element (no selected option below the dropdown,
no `td .lifter-list-id` at or above a pencil icon) leaves the empty string in every element its
target selector matches. -/
theorem click_handlers_missing_elements (this : Path) (d : Document) :
    (jQuery d [.id "list-clubs-id"] = [] → listClubsSubmitClick this d = d) ∧
    (jQuery d [.id "lifter-club-id"] = [] → lifterClubSubmitClick this d = d) ∧
    (jQuery d [.cls "lifter-id"] = [] → glyphiconPencilClick this d = d) ∧
    (jQuery d [.id "list-clubs", .selected] = [] →
      ∀ p ∈ jQuery d [.id "list-clubs-id"],
        valueAt (listClubsSubmitClick this d) p = some "") ∧
    (jQuery d [.id "lifter-club", .selected] = [] →
      ∀ p ∈ jQuery d [.id "lifter-club-id"],
        valueAt (lifterClubSubmitClick this d) p = some "") ∧
    (closest d (jQuery d [.tag "i", .cls "glyphicon-pencil"]) [.tag "td", .cls "lifter-list-id"]
        = [] →
      ∀ p ∈ jQuery d [.cls "lifter-id"],
        valueAt (glyphiconPencilClick this d) p = some "") := by
  refine ⟨?_, ?_, ?_, ?_, ?_, ?_⟩
  · intro h
    simp [listClubsSubmitClick, setVal, h, assign_nil]
  · intro h
    simp [lifterClubSubmitClick, setVal, h, assign_nil]
  · intro h
    simp [glyphiconPencilClick, setVal, h, assign_nil]
  · intro h p hp
    have := (copy_value d "list-clubs-id"
      (val d (jQuery d [.id "list-clubs", .selected])) p hp).2
    simpa [listClubsSubmitClick, h, val] using this
  · intro h p hp
    have := (copy_value d "lifter-club-id"
      (val d (jQuery d [.id "lifter-club", .selected])) p hp).2
    simpa [lifterClubSubmitClick, h, val] using this
  · intro h p hp
    obtain ⟨t, i, c, w, cs, hn⟩ := mem_jQuery_cls hp
    simp only [glyphiconPencilClick, setVal, h, html, Option.getD_none]
    exact valueAt_assign_of_mem _ _ d p hp hn

/-- C8, amended, at concrete pages: without a hidden field (`noTargetPage`) the click handler of
`#list-clubs-submit` returns the page as it was; without a lifter-id cell at or above the icon
(`lifterTable`) the pencil handler leaves the empty string in the lifter-id input. -/
theorem click_handlers_missing_elements_witness :
    listClubsSubmitClick [0, 1] noTargetPage = noTargetPage ∧
      valueAt (glyphiconPencilClick [0, 0, 0, 0, 2, 0, 0] lifterTable) [0, 1] = some "" :=
  ⟨(click_handlers_missing_elements [0, 1] noTargetPage).1 (by decide),
    (click_handlers_missing_elements [0, 0, 0, 0, 2, 0, 0] lifterTable).2.2.2.2.2 (by decide) [0, 1]
      (by decide)⟩

/-- C9: the document the pencil handler produces is the same whichever element was clicked;
the handler looks the icons up again in the whole document and never uses the clicked one. -/
theorem glyphiconPencilClick_ignores_clicked (d : Document) (a b : Path) :
    glyphiconPencilClick a d = glyphiconPencilClick b d := by
  rfl

end WeightLifter
